import Mathlib

/-!
Verification of the time-window selection and aggregation layer of the
electricity-generation charting service.

The embedding models the pandas-based core of the repository:

* `src/app/plotter.py` — one-time dataset load (timezone normalization,
  time-bucket feature columns, generation-column whitelist) and the three
  request handlers, in particular the `/composition_plot` whitelist filter.
* `src/src/fast_api_functions.py` — `plot_time_series` (trailing window with
  cutoff `max - days`), `plot_timeseries_average_by_time_multiple_columns`
  (groupby-mean aggregation and its palette-slicing color assignment), and
  `plot_generation_composition_days` (day-count clamping, trailing window
  with cutoff `max - (days - 1)`, numeric coercion with zero fill).
* `src/src/timeseries_plots.py` — `plot_generation_composition` (date-bounded
  filtering with its empty-range warning branch).

Modelling conventions:
* Timestamps are whole hours since the Unix epoch, as `Int`; the
  dataset is hourly.  `pd.Timedelta(days=d)` is `24 * d` hours and
  `Timedelta.days` is floor division by 24 (Lean's `/` on `Int` is Euclidean
  division, which agrees with Python floor division for positive divisors).
* A cell is `Option ℚ`; `none` stands for a missing value (`NaN`) or a value
  that `pd.to_numeric(errors='coerce')` turns into `NaN`.
* A `DataFrame` is a `Table`: a column-name list, an ordered row list
  (timestamp paired with a cell-valued function on column names) and the
  timezone attached to the whole index (`none` = timezone-naive).
* Boolean-mask selection (`df[df.index >= cutoff]`) is `List.filter`;
  `df.loc[start:]` on a monotonic index selects the same rows and is also
  modelled as a filter.
-/

namespace ElectricityPlots

/-- A table cell: `none` models `NaN` (missing or non-numeric). -/
abbrev Cell := Option ℚ

/-- One row of the frame: its timestamp and its cells, keyed by column name. -/
abbrev Row := Int × (String → Cell)

/-- A pandas `DataFrame` with a datetime index.  `tz` is the timezone of the
whole index (`none` = timezone-naive); timestamps are stored as wall-clock
values, so `tz_localize(None)` simply drops `tz`. -/
structure Table where
  cols : List String
  rows : List Row
  tz : Option Int

/-- Hour of day of a timestamp, as in `DatetimeIndex.hour`. -/
def hourOf (t : Int) : Int := t % 24

/-- Day of week (Monday = 0) of a timestamp, as in `DatetimeIndex.dayofweek`;
the Unix epoch 1970-01-01 was a Thursday (weekday 3). -/
def dayOfWeekOf (t : Int) : Int := (t / 24 + 3) % 7

/-- Month lengths of the shifted civil year that starts in March (so the
possible leap day comes last); used to recover the month from the
day-of-shifted-year. -/
def monthLengths : List Int := [31, 30, 31, 30, 31, 31, 30, 31, 30, 31, 31, 29]

/-- Index of the month containing day `d` of a shifted year with the given
month lengths (0-based); equivalent, on the reachable range, to the closed
form `(5 * d + 2) / 153` of the standard civil-from-days algorithm. -/
def monthScan : List Int → Int → Int
  | [], _ => 0
  | L :: rest, d => if d < L then 0 else 1 + monthScan rest (d - L)

/-- Day of the shifted (March-first) year containing a timestamp, by the
standard civil-from-days algorithm: split the days since 0000-03-01 into
400-year eras and recover the year of the era and the day of the year. -/
def doyOf (t : Int) : Int :=
  let z := t / 24 + 719468
  let era := z / 146097
  let doe := z - era * 146097
  let yoe := (doe - doe / 1460 + doe / 36524 - doe / 146096) / 365
  doe - (365 * yoe + yoe / 4 - yoe / 100)

/-- Month (1..12) of a timestamp in the proleptic Gregorian calendar, as in
`DatetimeIndex.month`: scan the shifted-year month lengths for the month
containing the day of the shifted year, then convert the March-based month
index to the civil month number. -/
def monthOf (t : Int) : Int :=
  if monthScan monthLengths (doyOf t) < 10 then
    monthScan monthLengths (doyOf t) + 3
  else monthScan monthLengths (doyOf t) - 9

/-- Extend the cells of a row with the three derived time-bucket columns, as
the assignments `df['hour_of_day'] = df.index.hour` etc. do at load time. -/
def addTimeFeatures (f : String → Cell) (t : Int) : String → Cell :=
  fun c =>
    if c = "hour_of_day" then some ((hourOf t : Int) : ℚ)
    else if c = "day_of_week" then some ((dayOfWeekOf t : Int) : ℚ)
    else if c = "month" then some ((monthOf t : Int) : ℚ)
    else f c

/-- Names of the derived time-bucket columns (`time_features` in the app). -/
def timeFeatureNames : List String := ["hour_of_day", "day_of_week", "month"]

/-- The one-time module-level load of `src/app/plotter.py` (lines 33-57):
parse the index, drop any timezone offset (`tz_localize(None)` keeps the
wall-clock values), and append the three time-bucket columns.  The source
performs no sorting. -/
def load (src : Table) : Table :=
  { cols := src.cols ++ timeFeatureNames
    rows := src.rows.map fun r => (r.1, addTimeFeatures r.2 r.1)
    tz := none }

/-- Derived columns excluded from the generation whitelist. -/
def excluded_generation_cols : List String :=
  ["generation_load_difference", "total_generation"]

/-- The generation-column whitelist: columns starting with `generation_`
minus the explicit exclusion list (`generation_columns` in the app). -/
def generation_columns (cols : List String) : List String :=
  cols.filter fun c =>
    c.startsWith "generation_" && !(excluded_generation_cols.contains c)

/-- Timestamps of a frame, in row order (the index). -/
def stampsOf (df : Table) : List Int := df.rows.map Prod.fst

/-- Largest timestamp of the index, `df.index.max()` (0 on an empty index,
where pandas yields `NaT`; call sites guard the empty case). -/
def maxStamp (df : Table) : Int := (stampsOf df).max?.getD 0

/-- Smallest timestamp of the index, `df.index.min()`. -/
def minStamp (df : Table) : Int := (stampsOf df).min?.getD 0

/-- Whole days spanned by the index plus one:
`(df.index.max() - df.index.min()).days + 1`. -/
def spanDays (df : Table) : Int := (maxStamp df - minStamp df) / 24 + 1

/-- Trailing-window selection of `plot_time_series`
(`src/src/fast_api_functions.py` lines 38-40): keep the rows from
`df.index.max() - pd.Timedelta(days=days)` on.  No clamping of `days`
happens on this path. -/
def plot_time_series_window (df : Table) (days : Int) : List Row :=
  if df.rows.isEmpty then []
  else df.rows.filter fun r => decide (maxStamp df - 24 * days ≤ r.1)

/-- Day-count clamping of `plot_generation_composition_days`
(`src/src/fast_api_functions.py` lines 147-151): raise `days` to 1, then cap
it at `(max - min).days + 1`. -/
def composition_clamp (df : Table) (days : Int) : Int :=
  if (if days < 1 then 1 else days) > spanDays df then spanDays df
  else if days < 1 then 1 else days

/-- Trailing-window selection of `plot_generation_composition_days`
(`src/src/fast_api_functions.py` lines 147-154): clamp the day count, then
keep the rows with timestamp at least
`df.index.max() - pd.Timedelta(days=days-1)`.  On an empty index the `NaT`
arithmetic makes every mask entry `False`, so the selection is empty. -/
def composition_window (df : Table) (days : Int) : List Row :=
  if df.rows.isEmpty then []
  else
    df.rows.filter fun r =>
      decide (maxStamp df - 24 * (composition_clamp df days - 1) ≤ r.1)

/-- The qualitative Plotly palette `px.colors.qualitative.Plotly`. -/
def color_palette : List String :=
  ["#636EFA", "#EF553B", "#00CC96", "#AB63FA", "#FFA15A",
   "#19D3F3", "#FF6692", "#B6E880", "#FF97FF", "#FECB52"]

/-- Cyclic color assignment `colors[i % len(colors)]` used by
`plot_time_series` and `plot_generation_composition_days`. -/
def cyclicColor (i : Nat) : String :=
  color_palette.getD (i % color_palette.length) ""

/-- Color assignment of `plot_timeseries_average_by_time_multiple_columns`
(lines 109-110 and 122): the palette is first truncated to the number of
requested columns (`Plotly[:len(columns)]`) and then indexed by the series
position without wrapping; `none` models the `IndexError` raised when the
position falls outside the truncated palette. -/
def avg_color (numCols i : Nat) : Option String :=
  (color_palette.take numCols)[i]?

/-- Trace list built by `plot_time_series`: for each column, its label, its
cyclic color, and the raw windowed values (missing cells stay missing and are
rendered as gaps). -/
def plot_time_series_figure (df : Table) (columns : List String) (days : Int) :
    List (String × String × List (Int × Cell)) :=
  columns.enum.map fun ic =>
    (ic.2, cyclicColor ic.1,
      (plot_time_series_window df days).map fun r => (r.1, r.2 ic.2))

/-- Stacked trace list built by `plot_generation_composition_days` (lines
156-172): the windowed cells of each generation column are coerced with
`pd.to_numeric(errors='coerce').fillna(0)`, so a missing or non-numeric cell
contributes 0. -/
def composition_series (df : Table) (genCols : List String) (days : Int) :
    List (String × String × List (Int × ℚ)) :=
  genCols.enum.map fun ic =>
    (ic.2, cyclicColor ic.1,
      (composition_window df days).map fun r => (r.1, (r.2 ic.2).getD 0))

/-- Arithmetic mean of a value list; `none` for the empty list, where pandas
reports `NaN`. -/
def meanOpt (l : List ℚ) : Option ℚ :=
  if l.length = 0 then none else some (l.sum / l.length)

/-- Rows of `df.groupby(feature)[col]`: the pairs (bucket key, cell); rows
whose bucket-feature cell is missing are dropped, as `groupby` drops `NaN`
keys. -/
def featureRows (df : Table) (feature col : String) : List (ℚ × Cell) :=
  df.rows.filterMap fun r => (r.2 feature).map fun k => (k, r.2 col)

/-- The non-missing observations of bucket `k`. -/
def bucketObs (rows : List (ℚ × Cell)) (k : ℚ) : List ℚ :=
  rows.filterMap fun r => if r.1 = k then r.2 else none

/-- Insert a key into a strictly sorted key list, keeping it strictly sorted
and duplicate-free. -/
def insertKey (k : ℚ) : List ℚ → List ℚ
  | [] => [k]
  | x :: xs =>
    if k < x then k :: x :: xs
    else if k = x then x :: xs
    else x :: insertKey k xs

/-- The distinct values of a list in ascending order — the group keys that
`groupby` produces (it sorts its keys). -/
def sortedKeys : List ℚ → List ℚ
  | [] => []
  | k :: t => insertKey k (sortedKeys t)

/-- `df.groupby(feature)[col].mean()` (line 115 of
`src/src/fast_api_functions.py`): one output entry per distinct bucket key
present in the input, in ascending key order (`groupby` sorts its keys), each
carrying the mean of the bucket's non-missing values (`mean` skips `NaN`;
a bucket whose values are all missing yields `NaN`). -/
def average_by_bucket (rows : List (ℚ × Cell)) : List (ℚ × Option ℚ) :=
  (sortedKeys (rows.map Prod.fst)).map fun k =>
    (k, meanOpt (bucketObs rows k))

/-- Trace list built by `plot_timeseries_average_by_time_multiple_columns`:
label, (possibly failing) truncated-palette color, and the per-bucket means. -/
def avg_plot_figure (df : Table) (columns : List String) (feature : String) :
    List (String × Option String × List (ℚ × Option ℚ)) :=
  columns.enum.map fun ic =>
    (ic.2, avg_color columns.length ic.1,
      average_by_bucket (featureRows df feature ic.2))

/-- The whitelist filter of the `/composition_plot` endpoint
(`src/app/plotter.py` line 181): `[c for c in columns_comp if c in
generation_columns]`. -/
def filter_to_whitelist (wl req : List String) : List String :=
  req.filter fun c => decide (c ∈ wl)

/-- Outcome of the `/composition_plot` endpoint. -/
inductive CompositionResponse where
  | noValidColumns
  | plot (series : List (String × String × List (Int × ℚ)))

/-- The `/composition_plot` endpoint (`src/app/plotter.py` lines 175-196):
filter the requested columns through the whitelist; if nothing survives,
return the "No valid generation columns selected" page, otherwise build the
composition chart.  Every branch returns a page; nothing raises. -/
def composition_plot_endpoint (df : Table) (wl req : List String)
    (days : Int) : CompositionResponse :=
  let cols := filter_to_whitelist wl req
  if cols.isEmpty then .noValidColumns
  else .plot (composition_series df cols days)

/-- Outcome of `plot_generation_composition` in
`src/src/timeseries_plots.py`: either the empty-range warning (the function
prints and returns `None`) or a chart. -/
inductive CompositionResult where
  | warning
  | chart (series : List (String × String × List (Int × ℚ)))

/-- Date-bounded filtering of `plot_generation_composition` (lines 158-165):
keep rows from `start_date` on when given, and strictly before
`end_date + 1 day` when given. -/
def date_filter (df : Table) (startDate endDate : Option Int) : List Row :=
  let f1 := match startDate with
    | some s => df.rows.filter fun r => decide (s ≤ r.1)
    | none => df.rows
  match endDate with
    | some e => f1.filter fun r => decide (r.1 < e + 24)
    | none => f1

/-- `plot_generation_composition` of `src/src/timeseries_plots.py` (lines
133-199): filter by the optional date bounds; an empty result triggers the
printed warning and an early return, otherwise the zero-filled stacked chart
is built. -/
def plot_generation_composition (df : Table) (genCols : List String)
    (startDate endDate : Option Int) : CompositionResult :=
  let f := date_filter df startDate endDate
  if f.isEmpty then .warning
  else .chart (genCols.enum.map fun ic =>
    (ic.2, cyclicColor ic.1, f.map fun r => (r.1, (r.2 ic.2).getD 0)))

/-- Effect of a `/plot` request on the shared module-level frame:
`plot_time_series` reassigns `df.index` only when the index is
timezone-aware (lines 30-36 of `src/src/fast_api_functions.py`); no other
statement of the handler writes to `df`. -/
def plot_request_state (df : Table) : Table :=
  if df.tz.isSome then { df with tz := none } else df

/-- Effect of an `/avg_plot` request on the shared frame: `groupby` reads
only, so the handler never writes to `df`. -/
def avg_request_state (df : Table) : Table := df

/-- Effect of a `/composition_plot` request on the shared frame: the numeric
coercion writes to `filtered_df`, a boolean-mask copy, never to `df`. -/
def composition_request_state (df : Table) : Table := df

/-- The three bucket features exposed by the app (`time_features`). -/
inductive TimeFeature where
  | hour_of_day
  | day_of_week
  | month

/-- Column name of a bucket feature. -/
def featureName : TimeFeature → String
  | .hour_of_day => "hour_of_day"
  | .day_of_week => "day_of_week"
  | .month => "month"

/-- Value of a bucket feature on a timestamp. -/
def featureFn : TimeFeature → Int → Int
  | .hour_of_day => hourOf
  | .day_of_week => dayOfWeekOf
  | .month => monthOf

/-- Lower end of a bucket feature's natural domain. -/
def featureLo : TimeFeature → Int
  | .hour_of_day => 0
  | .day_of_week => 0
  | .month => 1

/-- Upper end of a bucket feature's natural domain. -/
def featureHi : TimeFeature → Int
  | .hour_of_day => 23
  | .day_of_week => 6
  | .month => 12

/-- Concrete single-column row: value in column `a`, nothing elsewhere. -/
def exRow (v : ℚ) : String → Cell := fun c => if c = "a" then some v else none

/-- Concrete table: three rows at hours 0, 23 and 47 (span of 2 days). -/
def exTable : Table :=
  ⟨["a"], [(0, exRow 1), (23, exRow 2), (47, exRow 3)], none⟩

/-- Concrete empty table. -/
def emptyTable : Table := ⟨[], [], none⟩

/-- Concrete timezone-aware table whose rows are out of timestamp order. -/
def exUnsorted : Table := ⟨["a"], [(24, exRow 1), (0, exRow 2)], some 2⟩

/-- Concrete generation row: value in column `generation_solar` only. -/
def genRow (v : Cell) : String → Cell :=
  fun c => if c = "generation_solar" then v else none

/-- Concrete three-day table whose `generation_solar` column is
`[10, NaN, 20]`. -/
def compTable : Table :=
  ⟨["generation_solar"],
   [(0, genRow (some 10)), (24, genRow none), (48, genRow (some 20))], none⟩

/-- Eleven column names, one more than the palette has colors. -/
def elevenCols : List String :=
  ["c0", "c1", "c2", "c3", "c4", "c5", "c6", "c7", "c8", "c9", "c10"]

/-! Helper lemmas shared by the claim theorems. -/

instance : Std.Antisymm fun (a b : Int) => a ≤ b :=
  ⟨fun h1 h2 => le_antisymm h1 h2⟩

theorem int_max?_spec {l : List Int} {m : Int} (h : l.max? = some m) :
    m ∈ l ∧ ∀ x ∈ l, x ≤ m :=
  (List.max?_eq_some_iff (fun a => le_refl a) (fun a b => max_choice a b)
    (fun _ _ _ => max_le_iff)).1 h

theorem int_min?_spec {l : List Int} {m : Int} (h : l.min? = some m) :
    m ∈ l ∧ ∀ x ∈ l, m ≤ x :=
  (List.min?_eq_some_iff (fun a => le_refl a) (fun a b => min_choice a b)
    (fun _ _ _ => le_min_iff)).1 h

theorem max?_isSome_of_ne_nil {l : List Int} (h : l ≠ []) :
    ∃ m, l.max? = some m := by
  cases l with
  | nil => exact absurd rfl h
  | cons a t => exact ⟨_, List.max?_cons⟩

theorem min?_isSome_of_ne_nil {l : List Int} (h : l ≠ []) :
    ∃ m, l.min? = some m := by
  cases l with
  | nil => exact absurd rfl h
  | cons a t => exact ⟨_, List.min?_cons⟩

theorem stampsOf_ne_nil {df : Table} (h : df.rows ≠ []) : stampsOf df ≠ [] := by
  intro hc
  exact h (List.map_eq_nil_iff.mp hc)

theorem maxStamp_spec {df : Table} (h : df.rows ≠ []) :
    maxStamp df ∈ stampsOf df ∧ ∀ x ∈ stampsOf df, x ≤ maxStamp df := by
  obtain ⟨m, hm⟩ := max?_isSome_of_ne_nil (stampsOf_ne_nil h)
  have hs := int_max?_spec hm
  simpa [maxStamp, hm] using hs

theorem minStamp_spec {df : Table} (h : df.rows ≠ []) :
    minStamp df ∈ stampsOf df ∧ ∀ x ∈ stampsOf df, minStamp df ≤ x := by
  obtain ⟨m, hm⟩ := min?_isSome_of_ne_nil (stampsOf_ne_nil h)
  have hs := int_min?_spec hm
  simpa [minStamp, hm] using hs

theorem minStamp_le_maxStamp {df : Table} (h : df.rows ≠ []) :
    minStamp df ≤ maxStamp df :=
  (maxStamp_spec h).2 _ (minStamp_spec h).1

theorem spanDays_pos {df : Table} (h : df.rows ≠ []) : 1 ≤ spanDays df := by
  have hle := minStamp_le_maxStamp h
  have h0 : (0 : Int) ≤ (maxStamp df - minStamp df) / 24 :=
    Int.ediv_nonneg (by omega) (by norm_num)
  unfold spanDays
  omega

theorem rows_isEmpty_false {df : Table} (h : df.rows ≠ []) :
    ¬ df.rows.isEmpty = true := by
  simpa [List.isEmpty_iff] using h

/-! Claim C1. -/

/-- C1 (counterexample): on the three-row table spanning hours 0..47, a
day count of 100 exceeds the span (2 days), yet the composition window keeps
only the rows from hour 23 on — the returned rows do not equal the full
table, contradicting the claimed clamping consequence. -/
theorem trailing_window_clamp_counterexample :
    spanDays exTable < 100 ∧
      (composition_window exTable 100).map Prod.fst ≠
        exTable.rows.map Prod.fst := by
  decide

/-- C1 (amended): the composition path clamps the day count to
`min (max day_count 1) span`, and its windowed rows are exactly those with
timestamp at least `max - (clamped - 1)` days — which need not be the whole
table; the `/plot` path applies no clamping at all: its windowed rows are
those with timestamp at least `max - day_count` days, for every integer
day count. -/
theorem trailing_window_clamping (df : Table) (days : Int) (h : df.rows ≠ []) :
    composition_clamp df days = min (max days 1) (spanDays df)
    ∧ composition_window df days =
        df.rows.filter (fun r =>
          decide (maxStamp df - 24 * (min (max days 1) (spanDays df) - 1) ≤ r.1))
    ∧ plot_time_series_window df days =
        df.rows.filter (fun r => decide (maxStamp df - 24 * days ≤ r.1)) := by
  have hs := spanDays_pos h
  have hne := rows_isEmpty_false h
  have hcl : composition_clamp df days = min (max days 1) (spanDays df) := by
    unfold composition_clamp
    rcases lt_or_le days 1 with hd | hd
    · simp only [if_pos hd]
      split <;> omega
    · simp only [if_neg (not_lt.mpr hd)]
      split <;> omega
  refine ⟨hcl, ?_, ?_⟩
  · unfold composition_window
    rw [if_neg hne]
    simp only [hcl]
  · unfold plot_time_series_window
    rw [if_neg hne]

/-- C1 (witness): the amended theorem evaluated on the concrete three-row
table with a day count of 100. -/
theorem trailing_window_clamping_witness :
    composition_clamp exTable 100 = min (max 100 1) (spanDays exTable)
    ∧ composition_window exTable 100 =
        exTable.rows.filter (fun r =>
          decide (maxStamp exTable -
            24 * (min (max 100 1) (spanDays exTable) - 1) ≤ r.1))
    ∧ plot_time_series_window exTable 100 =
        exTable.rows.filter (fun r =>
          decide (maxStamp exTable - 24 * 100 ≤ r.1)) :=
  trailing_window_clamping exTable 100 (by simp [exTable])

/-! Claim C3. -/

/-- C3 (counterexample): loading a table whose rows arrive out of timestamp
order leaves them out of order — the module-level load never sorts, so the
claimed sorted-ascending invariant fails. -/
theorem load_sorted_counterexample :
    ¬ List.Sorted (· ≤ ·) (stampsOf (load exUnsorted)) := by
  decide

/-- C3 (amended): after the one-time load the index is timezone-naive and the
three time-bucket columns hour_of_day, day_of_week and month are appended
with the values derived from each row's timestamp, and this state is
established at construction; however the rows keep the source order — they
are sorted ascending only if the source already was. -/
theorem load_establishes_invariants (src : Table) :
    (load src).tz = none
    ∧ stampsOf (load src) = stampsOf src
    ∧ (load src).cols = src.cols ++ timeFeatureNames
    ∧ ∀ r ∈ (load src).rows,
        r.2 "hour_of_day" = some ((hourOf r.1 : Int) : ℚ)
        ∧ r.2 "day_of_week" = some ((dayOfWeekOf r.1 : Int) : ℚ)
        ∧ r.2 "month" = some ((monthOf r.1 : Int) : ℚ) := by
  refine ⟨rfl, ?_, rfl, ?_⟩
  · simp [stampsOf, load]
  · intro r hr
    simp only [load, List.mem_map] at hr
    obtain ⟨r0, -, rfl⟩ := hr
    exact ⟨rfl, rfl, rfl⟩

/-- C3 (witness): the load invariants evaluated on the concrete out-of-order
timezone-aware table, including the feature cells of its first row. -/
theorem load_establishes_invariants_witness :
    (load exUnsorted).tz = none
    ∧ ((24 : Int), addTimeFeatures (exRow 1) 24).2 "hour_of_day"
        = some ((hourOf 24 : Int) : ℚ) :=
  ⟨(load_establishes_invariants exUnsorted).1,
   ((load_establishes_invariants exUnsorted).2.2.2
      ((24 : Int), addTimeFeatures (exRow 1) 24)
      (by simp [load, exUnsorted])).1⟩

/-! Claim C7. -/

/-- C7: trailing-window selection is total (the embedding returns a value for
every table and every integer day count — clamping replaces all error
conditions), the composition window is empty exactly when the source table
is empty, and the date-bounded composition plotter surfaces an empty
filtered range as the printed warning value, not an exception. -/
theorem trailing_window_never_fails (df : Table) (days : Int) :
    (composition_window df days = [] ↔ df.rows = [])
    ∧ ∀ genCols s e, date_filter df s e = [] →
        plot_generation_composition df genCols s e = .warning := by
  constructor
  · constructor
    · intro hw
      by_contra hne
      obtain ⟨hmem, -⟩ := maxStamp_spec hne
      have hs := spanDays_pos hne
      obtain ⟨r, hr, hr1⟩ := List.mem_map.mp hmem
      have hcl : 1 ≤ composition_clamp df days := by
        unfold composition_clamp
        rcases lt_or_le days 1 with hd | hd
        · simp only [if_pos hd]
          split <;> omega
        · simp only [if_neg (not_lt.mpr hd)]
          split <;> omega
      have hcut : maxStamp df - 24 * (composition_clamp df days - 1) ≤ r.1 := by
        omega
      have hmem2 : r ∈ composition_window df days := by
        unfold composition_window
        rw [if_neg (rows_isEmpty_false hne)]
        exact List.mem_filter.mpr ⟨hr, by simpa using hcut⟩
      rw [hw] at hmem2
      exact absurd hmem2 (List.not_mem_nil r)
    · intro h
      unfold composition_window
      rw [if_pos]
      rw [List.isEmpty_iff]
      exact h
  · intro genCols s e hf
    unfold plot_generation_composition
    rw [hf]
    rfl

/-- C7 (witness): on the concrete empty table, the composition window of any
day count is empty and the date-bounded plotter returns the warning value. -/
theorem trailing_window_never_fails_witness :
    composition_window emptyTable 5 = []
    ∧ plot_generation_composition emptyTable ["generation_solar"] none none
        = .warning :=
  ⟨(trailing_window_never_fails emptyTable 5).1.mpr rfl,
   (trailing_window_never_fails emptyTable 5).2 ["generation_solar"] none none rfl⟩

/-! Claim C9. -/

/-- C9: serving any of the three requests on the shared post-load frame (its
index already timezone-naive) leaves the frame unchanged — `plot_time_series`
reassigns the index only when it is timezone-aware, the aggregation handler
only reads, and the composition handler's numeric coercion writes to a
boolean-mask copy; with the frame unchanged, the whitelist
`generation_columns (load src).cols` and the cached feature columns are
unchanged as well. -/
theorem request_handlers_preserve_table (df : Table) (h : df.tz = none) :
    plot_request_state df = df
    ∧ avg_request_state df = df
    ∧ composition_request_state df = df := by
  refine ⟨?_, rfl, rfl⟩
  unfold plot_request_state
  rw [h]
  rfl

/-- C9 (witness): the three request effects evaluated on the concrete loaded
three-row table. -/
theorem request_handlers_preserve_table_witness :
    plot_request_state (load exTable) = load exTable
    ∧ avg_request_state (load exTable) = load exTable
    ∧ composition_request_state (load exTable) = load exTable :=
  request_handlers_preserve_table (load exTable) rfl

/-! Claim C2. -/

/-- C2: the whitelist filter keeps exactly the requested columns that are in
the whitelist and silently drops every other requested column (membership in
the output is membership in both the request and the whitelist — no error for
unknown columns); when nothing survives, the endpoint returns the
"no valid columns" page instead of invoking the plotting pipeline, and
otherwise it plots exactly the surviving columns.  Every branch returns a
value: the endpoint never crashes. -/
theorem whitelist_endpoint_branches (df : Table) (wl req : List String)
    (days : Int) :
    (∀ c, c ∈ filter_to_whitelist wl req ↔ c ∈ req ∧ c ∈ wl)
    ∧ (filter_to_whitelist wl req = [] →
        composition_plot_endpoint df wl req days = .noValidColumns)
    ∧ (filter_to_whitelist wl req ≠ [] →
        composition_plot_endpoint df wl req days
          = .plot (composition_series df (filter_to_whitelist wl req) days)) := by
  refine ⟨?_, ?_, ?_⟩
  · intro c
    simp [filter_to_whitelist, List.mem_filter]
  · intro hemp
    unfold composition_plot_endpoint
    rw [hemp]
    rfl
  · intro hne
    unfold composition_plot_endpoint
    rw [if_neg]
    simpa [List.isEmpty_iff] using hne

/-- C2 (witness): requesting `generation_solar`, `generation_wind` and
`not_a_real_column` against the two-column whitelist keeps exactly the first
two (the third is silently dropped) and the endpoint renders the plot for
them. -/
theorem whitelist_endpoint_branches_witness :
    filter_to_whitelist ["generation_solar", "generation_wind"]
        ["generation_solar", "generation_wind", "not_a_real_column"]
      = ["generation_solar", "generation_wind"]
    ∧ ("not_a_real_column" ∈
        filter_to_whitelist ["generation_solar", "generation_wind"]
          ["generation_solar", "generation_wind", "not_a_real_column"]
        ↔ "not_a_real_column" ∈
            ["generation_solar", "generation_wind", "not_a_real_column"]
          ∧ "not_a_real_column" ∈ ["generation_solar", "generation_wind"])
    ∧ composition_plot_endpoint emptyTable
        ["generation_solar", "generation_wind"]
        ["generation_solar", "generation_wind", "not_a_real_column"] 3
      = .plot (composition_series emptyTable
          (filter_to_whitelist ["generation_solar", "generation_wind"]
            ["generation_solar", "generation_wind", "not_a_real_column"]) 3) :=
  ⟨by decide,
   (whitelist_endpoint_branches emptyTable
      ["generation_solar", "generation_wind"]
      ["generation_solar", "generation_wind", "not_a_real_column"] 3).1
      "not_a_real_column",
   (whitelist_endpoint_branches emptyTable
      ["generation_solar", "generation_wind"]
      ["generation_solar", "generation_wind", "not_a_real_column"] 3).2.2
      (by decide)⟩

/-! Claim C10. -/

/-- C10: the whitelist filter is order- and multiplicity-preserving — its
output is a sublist (subsequence) of the request, a whitelisted column keeps
its full multiplicity, a non-whitelisted column does not occur at all, and
filtering an already-filtered list returns it unchanged (idempotence). -/
theorem whitelist_filter_algebra (wl req : List String) :
    (filter_to_whitelist wl req).Sublist req
    ∧ (∀ c ∈ wl, (filter_to_whitelist wl req).count c = req.count c)
    ∧ (∀ c, c ∉ wl → (filter_to_whitelist wl req).count c = 0)
    ∧ filter_to_whitelist wl (filter_to_whitelist wl req)
        = filter_to_whitelist wl req := by
  refine ⟨List.filter_sublist req, ?_, ?_, ?_⟩
  · intro c hc
    exact List.count_filter (by simpa using hc)
  · intro c hc
    refine List.count_eq_zero.mpr ?_
    intro hmem
    rw [filter_to_whitelist, List.mem_filter] at hmem
    exact hc (of_decide_eq_true hmem.2)
  · simp [filter_to_whitelist, List.filter_filter]

/-- C10 (witness): filtering a request with a duplicate whitelisted column
and an unknown column keeps both duplicates, drops the unknown column, and
is idempotent on the result. -/
theorem whitelist_filter_algebra_witness :
    (filter_to_whitelist ["generation_solar", "generation_wind"]
        ["generation_solar", "bogus", "generation_solar"]).count "generation_solar"
      = (["generation_solar", "bogus", "generation_solar"] :
          List String).count "generation_solar"
    ∧ (filter_to_whitelist ["generation_solar", "generation_wind"]
        ["generation_solar", "bogus", "generation_solar"]).count "bogus" = 0
    ∧ filter_to_whitelist ["generation_solar", "generation_wind"]
        (filter_to_whitelist ["generation_solar", "generation_wind"]
          ["generation_solar", "bogus", "generation_solar"])
      = filter_to_whitelist ["generation_solar", "generation_wind"]
          ["generation_solar", "bogus", "generation_solar"] :=
  ⟨(whitelist_filter_algebra ["generation_solar", "generation_wind"]
      ["generation_solar", "bogus", "generation_solar"]).2.1
      "generation_solar" (by decide),
   (whitelist_filter_algebra ["generation_solar", "generation_wind"]
      ["generation_solar", "bogus", "generation_solar"]).2.2.1
      "bogus" (by decide),
   (whitelist_filter_algebra ["generation_solar", "generation_wind"]
      ["generation_solar", "bogus", "generation_solar"]).2.2.2⟩

/-! Aggregator helper lemmas. -/

theorem mem_insertKey {a k : ℚ} {l : List ℚ} :
    a ∈ insertKey k l ↔ a = k ∨ a ∈ l := by
  induction l with
  | nil => simp [insertKey]
  | cons x xs ih =>
    unfold insertKey
    split
    · simp [List.mem_cons]
    · split
      · rename_i hke
        subst hke
        simp [List.mem_cons]
      · simp only [List.mem_cons, ih]
        tauto

theorem mem_sortedKeys {a : ℚ} {l : List ℚ} : a ∈ sortedKeys l ↔ a ∈ l := by
  induction l with
  | nil => simp [sortedKeys]
  | cons x xs ih => simp [sortedKeys, mem_insertKey, ih]

theorem sorted_insertKey {k : ℚ} {l : List ℚ} (h : List.Sorted (· < ·) l) :
    List.Sorted (· < ·) (insertKey k l) := by
  induction l with
  | nil => simp [insertKey]
  | cons x xs ih =>
    rw [List.sorted_cons] at h
    obtain ⟨hx, hxs⟩ := h
    unfold insertKey
    split
    · rename_i hkx
      rw [List.sorted_cons]
      refine ⟨?_, ?_⟩
      · intro y hy
        rcases List.mem_cons.mp hy with rfl | hy2
        · exact hkx
        · exact hkx.trans (hx y hy2)
      · rw [List.sorted_cons]
        exact ⟨hx, hxs⟩
    · split
      · rw [List.sorted_cons]
        exact ⟨hx, hxs⟩
      · rename_i hkx hke
        rw [List.sorted_cons]
        refine ⟨?_, ih hxs⟩
        intro y hy
        rcases mem_insertKey.mp hy with rfl | hy2
        · exact lt_of_le_of_ne (not_lt.mp hkx) (fun he => hke he.symm)
        · exact hx y hy2

theorem sorted_sortedKeys (l : List ℚ) : List.Sorted (· < ·) (sortedKeys l) := by
  induction l with
  | nil => simp [sortedKeys]
  | cons x xs ih => exact sorted_insertKey ih

theorem average_keys_eq (rows : List (ℚ × Cell)) :
    (average_by_bucket rows).map Prod.fst = sortedKeys (rows.map Prod.fst) := by
  unfold average_by_bucket
  rw [List.map_map]
  have hf : (Prod.fst ∘ fun k : ℚ => (k, meanOpt (bucketObs rows k)))
      = fun k : ℚ => k := rfl
  rw [hf]
  exact List.map_id' _

theorem mem_average_keys (rows : List (ℚ × Cell)) (k : ℚ) :
    k ∈ (average_by_bucket rows).map Prod.fst ↔ k ∈ rows.map Prod.fst := by
  rw [average_keys_eq, mem_sortedKeys]

theorem average_keys_chain (rows : List (ℚ × Cell)) :
    List.Chain' (· < ·) ((average_by_bucket rows).map Prod.fst) := by
  rw [average_keys_eq]
  exact (sorted_sortedKeys _).chain'

theorem pair_mem_average {rows : List (ℚ × Cell)} {k : ℚ}
    (hk : k ∈ rows.map Prod.fst) :
    (k, meanOpt (bucketObs rows k)) ∈ average_by_bucket rows := by
  unfold average_by_bucket
  exact List.mem_map.mpr ⟨k, mem_sortedKeys.mpr hk, rfl⟩

theorem average_value_eq {rows : List (ℚ × Cell)} {k : ℚ} {m : Option ℚ}
    (h : (k, m) ∈ average_by_bucket rows) :
    m = meanOpt (bucketObs rows k) := by
  unfold average_by_bucket at h
  obtain ⟨k0, -, hk⟩ := List.mem_map.mp h
  injection hk with h1 h2
  subst h1
  exact h2.symm

theorem load_feature_cell {src : Table} {tf : TimeFeature} {r : Row}
    (hr : r ∈ (load src).rows) :
    r.2 (featureName tf) = some ((featureFn tf r.1 : Int) : ℚ) := by
  simp only [load, List.mem_map] at hr
  obtain ⟨r0, -, rfl⟩ := hr
  cases tf <;> rfl

theorem monthScan_bounds (l : List Int) (d : Int) :
    0 ≤ monthScan l d ∧ monthScan l d ≤ (l.length : Int) := by
  induction l generalizing d with
  | nil => simp [monthScan]
  | cons L rest ih =>
    simp only [monthScan, List.length_cons]
    split
    · omega
    · have h := ih (d - L)
      push_cast
      push_cast at h
      omega

theorem monthOf_range (t : Int) : 1 ≤ monthOf t ∧ monthOf t ≤ 12 := by
  have h := monthScan_bounds monthLengths (doyOf t)
  have hlen : (monthLengths.length : Int) = 12 := by rfl
  rw [hlen] at h
  unfold monthOf
  split <;> omega

theorem featureFn_range (tf : TimeFeature) (t : Int) :
    featureLo tf ≤ featureFn tf t ∧ featureFn tf t ≤ featureHi tf := by
  cases tf with
  | hour_of_day =>
    simp only [featureFn, featureLo, featureHi, hourOf]
    omega
  | day_of_week =>
    simp only [featureFn, featureLo, featureHi, dayOfWeekOf]
    omega
  | month =>
    simpa only [featureFn, featureLo, featureHi] using monthOf_range t

/-! Claim C4. -/

/-- C4: for every table, selected column and bucket feature, the
groupby-mean aggregation has one output bucket for exactly each bucket key
present in the input (a bucket with zero rows is omitted, not reported as
zero or `NaN`), and the value of an output bucket with at least one
non-missing observation is the arithmetic mean — sum over count — of exactly
the bucket's non-missing values, so missing and non-numeric cells are
excluded from the mean rather than coerced to zero (an output bucket all of
whose cells are missing carries `NaN`, modelled as `none`, not zero). -/
theorem aggregator_mean_spec (df : Table) (feature col : String) (k : ℚ) :
    (k ∈ (average_by_bucket (featureRows df feature col)).map Prod.fst
      ↔ k ∈ (featureRows df feature col).map Prod.fst)
    ∧ ∀ m, (k, m) ∈ average_by_bucket (featureRows df feature col) →
        (bucketObs (featureRows df feature col) k ≠ [] →
          m = some ((bucketObs (featureRows df feature col) k).sum /
            (bucketObs (featureRows df feature col) k).length))
        ∧ (bucketObs (featureRows df feature col) k = [] → m = none) := by
  refine ⟨mem_average_keys _ _, ?_⟩
  intro m hm
  have hv := average_value_eq hm
  constructor
  · intro hne
    rw [hv]
    unfold meanOpt
    rw [if_neg]
    simpa [List.length_eq_zero] using hne
  · intro he
    rw [hv, he]
    rfl

/-- C4 (witness): on the loaded three-day fixture whose `generation_solar`
column is `[10, NaN, 20]` and whose hour-of-day bucket is 0 for all three
rows, bucket 0's observations are exactly `[10, 20]` — the missing value is
excluded, not coerced to zero — and the reported value is their mean. -/
theorem aggregator_mean_spec_witness :
    bucketObs (featureRows (load compTable) "hour_of_day"
        "generation_solar") 0 = [10, 20]
    ∧ meanOpt (bucketObs (featureRows (load compTable) "hour_of_day"
        "generation_solar") 0)
      = some ((bucketObs (featureRows (load compTable) "hour_of_day"
          "generation_solar") 0).sum /
        (bucketObs (featureRows (load compTable) "hour_of_day"
          "generation_solar") 0).length) :=
  ⟨by decide,
   ((aggregator_mean_spec (load compTable) "hour_of_day" "generation_solar"
        0).2
      (meanOpt (bucketObs (featureRows (load compTable) "hour_of_day"
        "generation_solar") 0))
      (pair_mem_average (by decide))).1 (by decide)⟩

/-! Claim C8. -/

/-- C8: for every loaded table, column and bucket feature, the aggregation's
output bucket keys are strictly increasing in the feature's natural order,
every output key occurs among the input rows' feature values (no bucket
absent from the input appears), and every output key is an integer of the
feature's natural domain — 0..23 for hour_of_day, 0..6 for day_of_week,
1..12 for month. -/
theorem average_bucket_keys_props (src : Table) (tf : TimeFeature)
    (col : String) :
    List.Chain' (· < ·)
      ((average_by_bucket
        (featureRows (load src) (featureName tf) col)).map Prod.fst)
    ∧ ∀ k ∈ (average_by_bucket
        (featureRows (load src) (featureName tf) col)).map Prod.fst,
        k ∈ (featureRows (load src) (featureName tf) col).map Prod.fst
        ∧ ∃ j : Int, k = (j : ℚ) ∧ featureLo tf ≤ j ∧ j ≤ featureHi tf := by
  refine ⟨average_keys_chain _, ?_⟩
  intro k hk
  have hk2 := (mem_average_keys _ _).mp hk
  refine ⟨hk2, ?_⟩
  obtain ⟨p, hp, hpk⟩ := List.mem_map.mp hk2
  obtain ⟨r, hr, hre⟩ := List.mem_filterMap.mp hp
  rw [load_feature_cell hr] at hre
  simp only [Option.map_some'] at hre
  have hp2 := Option.some.inj hre
  refine ⟨featureFn tf r.1, ?_, (featureFn_range tf r.1).1,
    (featureFn_range tf r.1).2⟩
  rw [← hpk, ← hp2]

/-- C8 (witness): on the loaded three-row table (hours 0, 23, 47), the
hour-of-day buckets of column `a` are `[0, 23]` — strictly increasing — and
bucket key 0 occurs in the input and lies in 0..23. -/
theorem average_bucket_keys_props_witness :
    List.Chain' (· < ·)
      ((average_by_bucket
        (featureRows (load exTable) "hour_of_day" "a")).map Prod.fst)
    ∧ ((0 : ℚ) ∈ (featureRows (load exTable) "hour_of_day" "a").map Prod.fst
        ∧ ∃ j : Int, (0 : ℚ) = (j : ℚ) ∧ 0 ≤ j ∧ j ≤ 23) :=
  ⟨(average_bucket_keys_props exTable .hour_of_day "a").1,
   (average_bucket_keys_props exTable .hour_of_day "a").2 0 (by decide)⟩

/-! Claim C5. -/

/-- C5: in the composition path, every selected generation column's stacked
series carries, at each windowed row, the row's cell coerced through
`pd.to_numeric(errors='coerce').fillna(0)` — so a missing or non-numeric
cell contributes exactly 0 at that timestamp.  This is the opposite policy
to the aggregator's, which excludes the same cell from its mean. -/
theorem composition_zero_fill (df : Table) (genCols : List String) (days : Int)
    (c : String) (hc : c ∈ genCols) :
    ∃ color pts,
      (c, color, pts) ∈ composition_series df genCols days
      ∧ pts = (composition_window df days).map
          (fun r => (r.1, (r.2 c).getD 0))
      ∧ ∀ r ∈ composition_window df days, r.2 c = none → (r.1, 0) ∈ pts := by
  obtain ⟨n, hn⟩ := List.mem_iff_get.mp hc
  have hg : genCols.enum[n.1]? = some (n.1, c) := by
    rw [List.getElem?_enum, List.getElem?_eq_getElem n.2]
    simp only [Option.map_some']
    rw [show genCols[n.1] = c from hn]
  have henum : (n.1, c) ∈ genCols.enum := List.getElem?_mem hg
  refine ⟨cyclicColor n.1,
    (composition_window df days).map (fun r => (r.1, (r.2 c).getD 0)),
    ?_, rfl, ?_⟩
  · unfold composition_series
    exact List.mem_map.mpr ⟨(n.1, c), henum, rfl⟩
  · intro r hr hnone
    apply List.mem_map.mpr
    refine ⟨r, hr, ?_⟩
    rw [hnone]
    rfl

/-- C5 (witness): on the three-day fixture whose `generation_solar` column is
`[10, NaN, 20]`, the windowed stacked values are `[10, 0, 20]` — the missing
cell is carried as 0 — while the aggregator's mean over the same input uses
only the two non-missing values. -/
theorem composition_zero_fill_witness :
    (composition_window compTable 3).map
        (fun r => (r.2 "generation_solar").getD 0) = [10, 0, 20]
    ∧ ∃ color pts,
        ("generation_solar", color, pts)
          ∈ composition_series compTable ["generation_solar"] 3
        ∧ pts = (composition_window compTable 3).map
            (fun r => (r.1, (r.2 "generation_solar").getD 0))
        ∧ ∀ r ∈ composition_window compTable 3,
            r.2 "generation_solar" = none → (r.1, 0) ∈ pts :=
  ⟨by decide,
   composition_zero_fill compTable ["generation_solar"] 3 "generation_solar"
     (by decide)⟩

/-! Claim C6. -/

/-- C6 (counterexample): with eleven requested columns, the eleventh trace of
the average-by-bucket figure has no color — the palette is sliced to
`Plotly[:len(columns)]` (at most its own 10 entries) and indexed without
wrapping, raising `IndexError` — instead of the claimed cyclic color
`color_palette[10 mod 10]`. -/
theorem color_cycling_counterexample :
    ¬ ((avg_plot_figure emptyTable elevenCols "hour_of_day")[10]?.map
        (fun tr => tr.2.1) = some (some (cyclicColor 10))) := by
  decide

theorem avg_color_in_range {n i : Nat} (h1 : i < n)
    (h2 : i < color_palette.length) :
    avg_color n i = some (cyclicColor i) := by
  unfold avg_color
  rw [List.getElem?_take]
  rw [if_pos h1]
  have h2' : i < 10 := by simpa [color_palette] using h2
  interval_cases i <;> rfl

theorem avg_color_overflow {n i : Nat} (h2 : color_palette.length ≤ i) :
    avg_color n i = none := by
  unfold avg_color
  apply List.getElem?_eq_none
  rw [List.length_take]
  have := min_le_right n color_palette.length
  omega

/-- C6 (amended): the plain time-series path and the composition path color
the series at 0-based input position i with
`color_palette[i mod len(color_palette)]`, cyclically for any number of
series; the average-by-bucket path instead slices the palette to the first
`len(columns)` entries and indexes it without wrapping, which agrees with
the cyclic rule only while i is below the palette size (10) and yields no
color (`IndexError`) from position 10 on.  All three assignments depend only
on the position, so coloring is deterministic and order-stable. -/
theorem series_color_cycling (df : Table) (cols : List String)
    (feature : String) (days : Int) (i : Nat) (hi : i < cols.length) :
    ((plot_time_series_figure df cols days)[i]?.map (fun tr => tr.2.1))
      = some (cyclicColor i)
    ∧ ((composition_series df cols days)[i]?.map (fun tr => tr.2.1))
      = some (cyclicColor i)
    ∧ (i < color_palette.length →
        ((avg_plot_figure df cols feature)[i]?.map (fun tr => tr.2.1))
          = some (some (cyclicColor i)))
    ∧ (color_palette.length ≤ i →
        ((avg_plot_figure df cols feature)[i]?.map (fun tr => tr.2.1))
          = some none) := by
  have he : cols.enum[i]? = some (i, cols[i]) := by
    rw [List.getElem?_enum, List.getElem?_eq_getElem hi]
    rfl
  refine ⟨?_, ?_, ?_, ?_⟩
  · unfold plot_time_series_figure
    rw [List.getElem?_map, he]
    rfl
  · unfold composition_series
    rw [List.getElem?_map, he]
    rfl
  · intro h2
    unfold avg_plot_figure
    rw [List.getElem?_map, he]
    simp only [Option.map_some']
    rw [avg_color_in_range hi h2]
  · intro h2
    unfold avg_plot_figure
    rw [List.getElem?_map, he]
    simp only [Option.map_some']
    rw [avg_color_overflow h2]

/-- C6 (witness): the color assignments evaluated on concrete inputs — the
first series of a one-column request gets the first palette color on all
three paths, and the eleventh series of an eleven-column average request
gets none. -/
theorem series_color_cycling_witness :
    ((plot_time_series_figure emptyTable ["a"] 3)[0]?.map (fun tr => tr.2.1))
      = some (cyclicColor 0)
    ∧ ((composition_series emptyTable ["a"] 3)[0]?.map (fun tr => tr.2.1))
      = some (cyclicColor 0)
    ∧ ((avg_plot_figure emptyTable ["a"] "hour_of_day")[0]?.map
        (fun tr => tr.2.1)) = some (some (cyclicColor 0))
    ∧ ((avg_plot_figure emptyTable elevenCols "hour_of_day")[10]?.map
        (fun tr => tr.2.1)) = some none :=
  ⟨(series_color_cycling emptyTable ["a"] "hour_of_day" 3 0 (by decide)).1,
   (series_color_cycling emptyTable ["a"] "hour_of_day" 3 0 (by decide)).2.1,
   (series_color_cycling emptyTable ["a"] "hour_of_day" 3 0
      (by decide)).2.2.1 (by decide),
   (series_color_cycling emptyTable elevenCols "hour_of_day" 3 10
      (by decide)).2.2.2 (by decide)⟩

end ElectricityPlots
